import Mathlib

/-!
Shallow embedding of the core logic of `src/bot.py` (a desktop macro bot),
with theorems settling the frozen claims about its specification.

Conventions of the embedding:
* Python floats are modelled as `ℚ` (all arithmetic in the verified claims is
  exactly representable, so exact rational arithmetic is faithful there).
* Python ints are `ℕ` or `ℤ` as the sign discipline of the source dictates.
* Randomness (`random.uniform` draws) is modelled by passing the drawn value
  as an explicit parameter, following the spec's own testing guidance of
  injecting a fixed random source.
* Side effects on the screen (mouse clicks, key presses, template probes) are
  modelled as explicit event traces; visual probe outcomes are boolean inputs.
* A Python `dict` keyed by strings is modelled as a function
  `String → Option α`; `dict.update` with a same-keyed dict is a pointwise
  overwrite.
-/

namespace RokBot

/-! ## Visual probe: `ROKUnifiedTool.color_match` (src/bot.py:1605-1608)

`color_match(color, ref, tol)` splits each 24-bit packed RGB integer into
channels with shifts and masks (`>> 16 & 0xFF`, `>> 8 & 0xFF`, `& 0xFF`,
i.e. `/ 65536 % 256`, `/ 256 % 256`, `% 256`) and compares the channels by
absolute difference against the tolerance, independently per channel. -/

def rChan (c : ℕ) : ℕ := c / 65536 % 256

def gChan (c : ℕ) : ℕ := c / 256 % 256

def bChan (c : ℕ) : ℕ := c % 256

def color_match (color ref : ℕ) (tol : ℤ) : Bool :=
  decide (|(rChan color : ℤ) - (rChan ref : ℤ)| ≤ tol ∧
          |(gChan color : ℤ) - (gChan ref : ℤ)| ≤ tol ∧
          |(bChan color : ℤ) - (bChan ref : ℤ)| ≤ tol)

/-! ## Busy detection: `ROKUnifiedTool.verify_slot_empty` (src/bot.py:1890-1916)

The function runs three probes in order: an immediate `is_gathering` pixel
check, a 400 ms-delayed repeat of `is_gathering`, and the screenshot-area
check `is_gathering_screenshot`; it early-returns `False` on the first probe
that reports gathering and returns `True` only after all three passed. The
three probe outcomes are the boolean inputs here. -/

def verify_slot_empty (g1 g2 g3 : Bool) : Bool :=
  if g1 then false
  else if g2 then false
  else if g3 then false
  else true

/-! ## OCR parsing: `ROKUnifiedTool.convert_to_number` (src/bot.py:931-946)

The source uppercases the text, strips spaces and commas, matches the regex
`(\d+(\.\d+)?)([KMB]?)` anchored at the start, converts group 1 to a number
and multiplies by 1e3/1e6/1e9 for suffix K/M/B, then truncates with `int()`.
Here the greedy digit runs are `takeWhile`; the numeric value
`mantissa * mult / 10 ^ fracLen` is the exact value of the float pipeline
(truncation of a non-negative value is `Nat` division). -/

def digitsVal (l : List Char) : ℕ :=
  l.foldl (fun acc c => acc * 10 + (c.toNat - 48)) 0

def convert_to_number (s : String) : ℕ :=
  let t := (s.toList.map Char.toUpper).filter (fun c => c ≠ ' ' ∧ c ≠ ',')
  let intPart := t.takeWhile Char.isDigit
  if intPart.isEmpty then 0
  else
    let rest := t.dropWhile Char.isDigit
    let fracAndRest : List Char × List Char :=
      match rest with
      | '.' :: r =>
        let f := r.takeWhile Char.isDigit
        if f.isEmpty then ([], rest) else (f, r.dropWhile Char.isDigit)
      | _ => ([], rest)
    let fracPart := fracAndRest.1
    let mult : ℕ :=
      match fracAndRest.2 with
      | 'K' :: _ => 1000
      | 'M' :: _ => 1000000
      | 'B' :: _ => 1000000000
      | _ => 1
    digitsVal (intPart ++ fracPart) * mult / 10 ^ fracPart.length

/-! ## Fatigue model: `ROKUnifiedTool.update_fatigue` (src/bot.py:1617-1626)
and `ROKUnifiedTool.get_fatigue_multiplier` (src/bot.py:1628-1631)

`update_fatigue` derives the fatigue level from elapsed session minutes
(piecewise linear, clamped at 100) plus a clamped bonus for actions beyond
the 50th. `get_fatigue_multiplier` maps the level plus a random variance
draw in [-0.15, 0.15] into a delay multiplier clamped to [1, 2]. -/

def fatigue_base (e : ℚ) : ℚ :=
  if e < 45 then e / 45 * 80
  else min 100 (80 + (e - 45) / 60 * 20)

def update_fatigue (e : ℚ) (actions : ℕ) : ℚ :=
  if 50 < actions then min 100 (fatigue_base e + ((actions : ℚ) - 50) / 10)
  else fatigue_base e

def get_fatigue_multiplier (fatigue variance : ℚ) : ℚ :=
  let base := 1 + fatigue / 100 * (8/10)
  max 1 (min 2 (base + variance))

/-! ## Cooldown check: `ROKUnifiedTool.can_send_march` (src/bot.py:2077-2080)

The source draws `min_wait = random.uniform(min_wait_time_base,
max_wait_time_base)` freshly on each call and returns
`current_time - slot_last_check[slot] >= min_wait` (times in ms). The draw
is the injected parameter `draw`. -/

def can_send_march (current_time last_check draw : ℚ) : Bool :=
  decide (current_time - last_check ≥ draw)

/-! ## Buff detector: `BuffDetector.scan_for_buffs` (src/bot.py:152-212)

State: `active_buffs` (a dict keyed by buff name, here `String → Option
BuffEntry`) and `buff_history` (a list, append-only within a scan). One scan
iterates the loaded templates; each found buff produces an info record with
`detected_at := current_time`. A buff not yet in `active_buffs` is inserted
and appended to the history; a buff already present has its entry
overwritten by `dict.update` with the new record (every key, including
`detected_at`, is replaced). Afterwards every active entry with
`current_time - detected_at > buff_timeout` is removed. The per-scan
detection results (name, position, confidence of each found template) are
the `Detection` list input; template names are dict keys, hence distinct. -/

structure BuffEntry where
  pos : ℤ × ℤ
  conf : ℚ
  detected_at : ℚ
deriving DecidableEq

structure Detection where
  name : String
  pos : ℤ × ℤ
  conf : ℚ

@[ext]
structure ScanState where
  active : String → Option BuffEntry
  history : List (String × BuffEntry)

def scanStep (now : ℚ) (st : ScanState) (d : Detection) : ScanState :=
  let info : BuffEntry := ⟨d.pos, d.conf, now⟩
  { active := fun n => if n = d.name then some info else st.active n
    history :=
      if (st.active d.name).isSome then st.history
      else st.history ++ [(d.name, info)] }

def processDetections (now : ℚ) : List Detection → ScanState → ScanState
  | [], st => st
  | d :: rest, st => processDetections now rest (scanStep now st d)

def removeExpired (now timeout : ℚ) (m : String → Option BuffEntry) :
    String → Option BuffEntry :=
  fun n =>
    match m n with
    | some e => if now - e.detected_at > timeout then none else some e
    | none => none

def scan_for_buffs (now timeout : ℚ) (dets : List Detection)
    (st : ScanState) : ScanState :=
  let st1 := processDetections now dets st
  { st1 with active := removeExpired now timeout st1.active }

/-! ## Buff activator: `AutoBuffActivator.activate_buff` (src/bot.py:390-468)
and `AutoBuffActivator.emergency_close` (src/bot.py:470-481)

`activate_buff` first tries `activation_lock.acquire(blocking=False)`; on
failure it returns `False` at once, having done nothing. Otherwise it runs
five `find_and_click` steps. Each failing step among 2-4 records its label
in `last_error_step` and calls `emergency_close` before returning `False`;
a failing step 1 records its label and returns `False` without
`emergency_close`; a failing step 5 calls `emergency_close` but execution
falls through to the success block, which clears `last_error_step` and
returns `True`. `emergency_close` is one `find_and_click` on the close
template followed by three escape key presses.

The five `find_and_click` outcomes are boolean inputs; the UI side effects
are collected as an event trace. -/

inductive UIEvent where
  | attempt (step : ℕ)
  | clickClose
  | pressEsc
deriving DecidableEq

def emergency_close : List UIEvent :=
  [UIEvent.clickClose, UIEvent.pressEsc, UIEvent.pressEsc, UIEvent.pressEsc]

structure ActivationOutcome where
  success : Bool
  lastErrorStep : String
  events : List UIEvent
deriving DecidableEq

def activate_buff (lockHeld : Bool) (prevErr : String)
    (s1 s2 s3 s4 s5 : Bool) : ActivationOutcome :=
  if lockHeld then ⟨false, prevErr, []⟩
  else if ¬s1 then ⟨false, "Step 1: Menu failed", [.attempt 1]⟩
  else if ¬s2 then
    ⟨false, "Step 2: Boosts failed", [.attempt 1, .attempt 2] ++ emergency_close⟩
  else if ¬s3 then
    ⟨false, "Step 3: Buff failed",
      [.attempt 1, .attempt 2, .attempt 3] ++ emergency_close⟩
  else if ¬s4 then
    ⟨false, "Step 4: Use failed",
      [.attempt 1, .attempt 2, .attempt 3, .attempt 4] ++ emergency_close⟩
  else if ¬s5 then
    ⟨true, "",
      [.attempt 1, .attempt 2, .attempt 3, .attempt 4, .attempt 5] ++
        emergency_close⟩
  else
    ⟨true, "", [.attempt 1, .attempt 2, .attempt 3, .attempt 4, .attempt 5]⟩

/-! ## March dispatch: `ROKUnifiedTool.send_march` (src/bot.py:2082-2183)

The guards run in source order: PyAutoGUI availability, the activator's
`is_activating` flag, the micro-break draw, the cooldown check, and the
slot-emptiness verification; each failing guard returns `False` before any
click of the 6-click sequence. Only after all guards pass are the six
clicks performed, and the result is `verify_march_started`. Guard outcomes
and the verification result are boolean inputs; the trace records the click
steps performed. -/

structure MarchOutcome where
  success : Bool
  clicks : List ℕ
deriving DecidableEq

def send_march (autogui activating microBreak canSend slotEmpty
    marchStarted : Bool) : MarchOutcome :=
  if ¬autogui then ⟨false, []⟩
  else if activating then ⟨false, []⟩
  else if microBreak then ⟨false, []⟩
  else if ¬canSend then ⟨false, []⟩
  else if ¬slotEmpty then ⟨false, []⟩
  else ⟨marchStarted, [1, 2, 3, 4, 5, 6]⟩

/-! ## Theorems for the claims -/

/-- C3: `verify_slot_empty` returns true exactly when all three constituent
probes (immediate `is_gathering`, the 400 ms-delayed repeat, and
`is_gathering_screenshot`) report "not gathering"; if any one reports
gathering it returns false. Quantifying over the three booleans covers all
8 combinations. -/
theorem verify_slot_empty_conjunction :
    ∀ g1 g2 g3 : Bool,
      verify_slot_empty g1 g2 g3 = true ↔
        g1 = false ∧ g2 = false ∧ g3 = false := by
  decide

/-- C6: `convert_to_number` satisfies the spec's parse vectors, and the
suffixes K, M, B multiply by 1e3, 1e6, 1e9 respectively. -/
theorem convert_to_number_vectors :
    convert_to_number "12.5K" = 12500 ∧
    convert_to_number "3M" = 3000000 ∧
    convert_to_number "500" = 500 ∧
    convert_to_number "" = 0 ∧
    convert_to_number "garbage" = 0 ∧
    convert_to_number "1K" = 1000 ∧
    convert_to_number "1M" = 1000000 ∧
    convert_to_number "1B" = 1000000000 :=
  ⟨rfl, rfl, rfl, rfl, rfl, rfl, rfl, rfl⟩

/-- C9: `color_match` is reflexive for every tolerance `t ≥ 0`, and at
tolerance 0 it holds between two 24-bit colors iff they are equal (the
comparison is per-channel absolute difference). -/
theorem color_match_refl_and_zero_tol :
    (∀ (c : ℕ) (t : ℤ), 0 ≤ t → color_match c c t = true) ∧
    (∀ c1 c2 : ℕ, c1 < 2 ^ 24 → c2 < 2 ^ 24 →
      (color_match c1 c2 0 = true ↔ c1 = c2)) := by
  constructor
  · intro c t ht
    simp only [color_match, sub_self, abs_zero, decide_eq_true_eq]
    exact ⟨ht, ht, ht⟩
  · intro c1 c2 h1 h2
    constructor
    · intro h
      simp only [color_match, decide_eq_true_eq] at h
      obtain ⟨hr, hg, hb⟩ := h
      rw [abs_nonpos_iff, sub_eq_zero] at hr hg hb
      have hr' : rChan c1 = rChan c2 := by exact_mod_cast hr
      have hg' : gChan c1 = gChan c2 := by exact_mod_cast hg
      have hb' : bChan c1 = bChan c2 := by exact_mod_cast hb
      simp only [rChan, gChan, bChan] at hr' hg' hb'
      omega
    · rintro rfl
      simp only [color_match, sub_self, abs_zero, decide_eq_true_eq]
      exact ⟨le_refl 0, le_refl 0, le_refl 0⟩

/-- C9 witness: the theorem instantiated at the concrete color 0xAABBCC. -/
theorem color_match_refl_and_zero_tol_witness :
    color_match 11189196 11189196 5 = true ∧
    (color_match 11189196 11189196 0 = true ↔ 11189196 = 11189196) :=
  ⟨color_match_refl_and_zero_tol.1 11189196 5 (by decide),
   color_match_refl_and_zero_tol.2 11189196 11189196 (by decide) (by decide)⟩

/-- C10: for every fatigue level in [0, 100] and every variance draw in
[-0.15, 0.15], `get_fatigue_multiplier` lies in the closed interval
[1, 2]. -/
theorem get_fatigue_multiplier_bounds :
    ∀ f v : ℚ, 0 ≤ f → f ≤ 100 → -(3/20) ≤ v → v ≤ 3/20 →
      1 ≤ get_fatigue_multiplier f v ∧ get_fatigue_multiplier f v ≤ 2 := by
  intro f v _ _ _ _
  unfold get_fatigue_multiplier
  refine ⟨le_max_left 1 _, max_le (by norm_num) (min_le_left 2 _)⟩

/-- C10 witness: the theorem instantiated at fatigue 50 and variance 1/10. -/
theorem get_fatigue_multiplier_bounds_witness :
    1 ≤ get_fatigue_multiplier 50 (1/10) ∧
      get_fatigue_multiplier 50 (1/10) ≤ 2 :=
  get_fatigue_multiplier_bounds 50 (1/10) (by norm_num) (by norm_num)
    (by norm_num) (by norm_num)

/-- C8: `can_send_march` is eligible exactly when the elapsed time since the
slot's last dispatch is at least the injected random draw; in particular,
with a slot last dispatched 40 s (40000 ms) ago and a draw from
[35000, 55000), it is eligible iff the draw is ≤ 40000. -/
theorem can_send_march_threshold :
    (∀ ct lc draw : ℚ, can_send_march ct lc draw = true ↔ draw ≤ ct - lc) ∧
    (∀ draw : ℚ, 35000 ≤ draw → draw < 55000 →
      (can_send_march 40000 0 draw = true ↔ draw ≤ 40000)) := by
  constructor
  · intro ct lc draw
    simp [can_send_march, ge_iff_le]
  · intro draw _ _
    simp only [can_send_march, ge_iff_le, decide_eq_true_eq]
    norm_num

/-- C8 witness: the theorem instantiated at a concrete draw of 38000 ms. -/
theorem can_send_march_threshold_witness :
    can_send_march 40000 0 38000 = true ↔ (38000 : ℚ) ≤ 40000 :=
  can_send_march_threshold.2 38000 (by norm_num) (by norm_num)

/-- C4: the ActivationLock protocol is non-blocking on both sides: with the
lock already held, `activate_buff` returns failure at once with no UI event;
with the activator's `is_activating` flag set, `send_march` returns false
with no click of its sequence performed. -/
theorem activation_lock_nonblocking :
    (∀ (p : String) (s1 s2 s3 s4 s5 : Bool),
      activate_buff true p s1 s2 s3 s4 s5 = ⟨false, p, []⟩) ∧
    (∀ mb cs se ms : Bool,
      send_march true true mb cs se ms = ⟨false, []⟩) :=
  ⟨fun _ _ _ _ _ _ => rfl, fun _ _ _ _ => rfl⟩

lemma fatigue_base_nonneg (e : ℚ) (he : 0 ≤ e) : 0 ≤ fatigue_base e := by
  unfold fatigue_base
  split_ifs with h
  · positivity
  · exact le_min (by norm_num) (by linarith)

lemma fatigue_base_le_100 (e : ℚ) : fatigue_base e ≤ 100 := by
  unfold fatigue_base
  split_ifs with h
  · linarith
  · exact min_le_left _ _

lemma fatigue_base_mono (e1 e2 : ℚ) (h : e1 ≤ e2) :
    fatigue_base e1 ≤ fatigue_base e2 := by
  unfold fatigue_base
  split_ifs with h1 h2 h2
  · linarith
  · exact le_min (by linarith) (by linarith)
  · linarith
  · exact min_le_min le_rfl (by linarith)

/-- C5: `update_fatigue` is monotone non-decreasing in elapsed session time
with the action count fixed, non-decreasing in the action count with the
time fixed, and always in [0, 100], for non-negative elapsed time and any
action count. -/
theorem update_fatigue_monotone_and_bounded :
    (∀ (e1 e2 : ℚ) (a : ℕ), 0 ≤ e1 → e1 ≤ e2 →
        update_fatigue e1 a ≤ update_fatigue e2 a) ∧
    (∀ (e : ℚ) (a1 a2 : ℕ), 0 ≤ e → a1 ≤ a2 →
        update_fatigue e a1 ≤ update_fatigue e a2) ∧
    (∀ (e : ℚ) (a : ℕ), 0 ≤ e →
        0 ≤ update_fatigue e a ∧ update_fatigue e a ≤ 100) := by
  refine ⟨?_, ?_, ?_⟩
  · intro e1 e2 a _ he
    unfold update_fatigue
    split_ifs with h
    · exact min_le_min le_rfl (by linarith [fatigue_base_mono e1 e2 he])
    · exact fatigue_base_mono e1 e2 he
  · intro e a1 a2 _ ha
    unfold update_fatigue
    split_ifs with h1 h2 h2
    · have hc : ((a1 : ℚ) - 50) / 10 ≤ ((a2 : ℚ) - 50) / 10 := by
        have : (a1 : ℚ) ≤ (a2 : ℚ) := by exact_mod_cast ha
        linarith
      exact min_le_min le_rfl (by linarith)
    · omega
    · have hc : (0 : ℚ) ≤ ((a2 : ℚ) - 50) / 10 := by
        have : (50 : ℚ) < (a2 : ℚ) := by exact_mod_cast h2
        linarith
      exact le_min (fatigue_base_le_100 e) (by linarith)
    · exact le_rfl
  · intro e a he
    unfold update_fatigue
    split_ifs with h
    · constructor
      · refine le_min (by norm_num) ?_
        have hc : (0 : ℚ) ≤ ((a : ℚ) - 50) / 10 := by
          have : (50 : ℚ) < (a : ℚ) := by exact_mod_cast h
          linarith
        have := fatigue_base_nonneg e he
        linarith
      · exact min_le_left _ _
    · exact ⟨fatigue_base_nonneg e he, fatigue_base_le_100 e⟩

/-- C5 witness: the theorem instantiated at concrete times 10 and 20 minutes
and action counts 0 and 60. -/
theorem update_fatigue_monotone_and_bounded_witness :
    update_fatigue 10 0 ≤ update_fatigue 20 0 ∧
    update_fatigue 10 0 ≤ update_fatigue 10 60 ∧
    (0 ≤ update_fatigue 10 0 ∧ update_fatigue 10 0 ≤ 100) :=
  ⟨update_fatigue_monotone_and_bounded.1 10 20 0 (by norm_num) (by norm_num),
   update_fatigue_monotone_and_bounded.2.1 10 0 60 (by norm_num) (by norm_num),
   update_fatigue_monotone_and_bounded.2.2 10 0 (by norm_num)⟩

lemma scanStep_fix (now : ℚ) (st : ScanState) (d : Detection)
    (ha : st.active d.name = some ⟨d.pos, d.conf, now⟩) :
    scanStep now st d = st := by
  refine ScanState.ext ?_ ?_
  · funext n
    by_cases hn : n = d.name
    · subst hn
      simp [scanStep, ha]
    · simp [scanStep, hn]
  · simp [scanStep, ha]

lemma processDetections_fixpoint (now : ℚ) (dets : List Detection) :
    ∀ st : ScanState,
      (∀ d ∈ dets, st.active d.name = some ⟨d.pos, d.conf, now⟩) →
      processDetections now dets st = st := by
  induction dets with
  | nil => intro st _; rfl
  | cons d rest ih =>
    intro st h
    show processDetections now rest (scanStep now st d) = st
    rw [scanStep_fix now st d (h d (List.mem_cons_self d rest))]
    exact ih st fun d' hd' => h d' (List.mem_cons_of_mem d hd')

lemma processDetections_active_of_notMem (now : ℚ) (dets : List Detection) :
    ∀ (st : ScanState) (b : String), b ∉ dets.map Detection.name →
      (processDetections now dets st).active b = st.active b := by
  induction dets with
  | nil => intro st b _; rfl
  | cons d rest ih =>
    intro st b hb
    simp only [List.map_cons, List.mem_cons, not_or] at hb
    show (processDetections now rest (scanStep now st d)).active b = st.active b
    rw [ih (scanStep now st d) b hb.2]
    simp [scanStep, hb.1]

lemma processDetections_active_of_mem (now : ℚ) (dets : List Detection) :
    ∀ (st : ScanState) (d : Detection), (dets.map Detection.name).Nodup →
      d ∈ dets →
      (processDetections now dets st).active d.name =
        some ⟨d.pos, d.conf, now⟩ := by
  induction dets with
  | nil => intro st d _ hd; exact absurd hd (List.not_mem_nil d)
  | cons d0 rest ih =>
    intro st d hnd hd
    simp only [List.map_cons, List.nodup_cons] at hnd
    rcases List.mem_cons.mp hd with rfl | hmem
    · show (processDetections now rest (scanStep now st d)).active d.name = _
      rw [processDetections_active_of_notMem now rest _ d.name hnd.1]
      simp [scanStep]
    · exact ih (scanStep now st d0) d hnd.2 hmem

lemma removeExpired_some (now tmo : ℚ) (m : String → Option BuffEntry)
    (b : String) (e : BuffEntry) (h : m b = some e) :
    removeExpired now tmo m b =
      if now - e.detected_at > tmo then none else some e := by
  unfold removeExpired
  rw [h]

lemma removeExpired_idem (now tmo : ℚ) (m : String → Option BuffEntry) :
    removeExpired now tmo (removeExpired now tmo m) =
      removeExpired now tmo m := by
  funext n
  cases h : m n with
  | none => simp [removeExpired, h]
  | some e =>
    by_cases hc : now - e.detected_at > tmo <;>
      simp [removeExpired, h, hc]

lemma scan_active_of_mem (now tmo : ℚ) (dets : List Detection)
    (st : ScanState) (d : Detection) (ht : 0 ≤ tmo)
    (hnd : (dets.map Detection.name).Nodup) (hd : d ∈ dets) :
    (scan_for_buffs now tmo dets st).active d.name =
      some ⟨d.pos, d.conf, now⟩ := by
  show removeExpired now tmo (processDetections now dets st).active d.name = _
  rw [removeExpired_some now tmo _ d.name ⟨d.pos, d.conf, now⟩
    (processDetections_active_of_mem now dets st d hnd hd)]
  have hno : ¬ now - (⟨d.pos, d.conf, now⟩ : BuffEntry).detected_at > tmo := by
    show ¬ now - now > tmo
    simp only [sub_self, not_lt]
    exact ht
  rw [if_neg hno]

/-- C1 (amended): a buff in the active-buff map is removed by a scan exactly
when the current time minus its most-recent-detection timestamp exceeds
`buff_timeout`; re-detection of a still-visible buff overwrites the
timestamp with the scan time and thereby extends the expiry deadline. -/
theorem scan_expiry_last_detection :
    ∀ (now tmo : ℚ) (dets : List Detection) (st : ScanState),
      0 ≤ tmo → (dets.map Detection.name).Nodup →
      (∀ (b : String) (e : BuffEntry), b ∉ dets.map Detection.name →
          st.active b = some e →
          (scan_for_buffs now tmo dets st).active b =
            if now - e.detected_at > tmo then none else some e) ∧
      (∀ d ∈ dets,
          (scan_for_buffs now tmo dets st).active d.name =
            some ⟨d.pos, d.conf, now⟩) := by
  intro now tmo dets st ht hnd
  constructor
  · intro b e hb he
    show removeExpired now tmo (processDetections now dets st).active b = _
    have hp : (processDetections now dets st).active b = some e := by
      rw [processDetections_active_of_notMem now dets st b hb]
      exact he
    exact removeExpired_some now tmo _ b e hp
  · intro d hd
    exact scan_active_of_mem now tmo dets st d ht hnd hd

/-- C1 witness: a fresh buff detected at time 5 with timeout 300 is in the
active map with its timestamp set to the scan time. -/
theorem scan_expiry_last_detection_witness :
    (scan_for_buffs 5 300 [⟨"b", (0, 0), 80⟩]
        ⟨fun _ => none, []⟩).active "b" = some ⟨(0, 0), 80, 5⟩ :=
  (scan_expiry_last_detection 5 300 [⟨"b", (0, 0), 80⟩] ⟨fun _ => none, []⟩
      (by norm_num) (by decide)).2 ⟨"b", (0, 0), 80⟩ (by simp)

/-- C1 counterexample: a buff first detected at time 0 and re-detected at
time 200 is still in the active map at a scan at time 350 with timeout 300,
although 350 - 0 > 300 — re-detection extended the expiry deadline, so
removal is not governed by the first-detection timestamp as claimed. -/
theorem scan_expiry_counterexample :
    ((scan_for_buffs 350 300 []
        (scan_for_buffs 200 300 [⟨"b", (0, 0), 80⟩]
          (scan_for_buffs 0 300 [⟨"b", (0, 0), 80⟩]
            ⟨fun _ => none, []⟩))).active "b").isSome = true ∧
    (350 : ℚ) - 0 > 300 := by
  constructor
  · have h2 : (scan_for_buffs 200 300 [⟨"b", (0, 0), 80⟩]
        (scan_for_buffs 0 300 [⟨"b", (0, 0), 80⟩]
          ⟨fun _ => none, []⟩)).active "b" = some ⟨(0, 0), 80, 200⟩ :=
      scan_active_of_mem 200 300 _ _ ⟨"b", (0, 0), 80⟩ (by norm_num)
        (by decide) (by simp)
    have h3 : (scan_for_buffs 350 300 []
        (scan_for_buffs 200 300 [⟨"b", (0, 0), 80⟩]
          (scan_for_buffs 0 300 [⟨"b", (0, 0), 80⟩]
            ⟨fun _ => none, []⟩))).active "b" = some ⟨(0, 0), 80, 200⟩ := by
      show removeExpired 350 300
        (scan_for_buffs 200 300 [⟨"b", (0, 0), 80⟩]
          (scan_for_buffs 0 300 [⟨"b", (0, 0), 80⟩]
            ⟨fun _ => none, []⟩)).active "b" = _
      rw [removeExpired_some 350 300 _ "b" ⟨(0, 0), 80, 200⟩ h2]
      norm_num
    rw [h3]
    rfl
  · norm_num

/-- C7: scanning twice at the same instant over the same detection results
(template names are dict keys, hence distinct) leaves the active-buff map
unchanged and appends nothing to the buff history. -/
theorem scan_for_buffs_idempotent :
    ∀ (now tmo : ℚ) (dets : List Detection) (st : ScanState),
      0 ≤ tmo → (dets.map Detection.name).Nodup →
      (scan_for_buffs now tmo dets (scan_for_buffs now tmo dets st)).active =
          (scan_for_buffs now tmo dets st).active ∧
      (scan_for_buffs now tmo dets (scan_for_buffs now tmo dets st)).history =
          (scan_for_buffs now tmo dets st).history := by
  intro now tmo dets st ht hnd
  have hfix : processDetections now dets (scan_for_buffs now tmo dets st) =
      scan_for_buffs now tmo dets st :=
    processDetections_fixpoint now dets _
      (fun d hd => scan_active_of_mem now tmo dets st d ht hnd hd)
  constructor
  · show removeExpired now tmo
        (processDetections now dets (scan_for_buffs now tmo dets st)).active =
      (scan_for_buffs now tmo dets st).active
    rw [hfix]
    exact removeExpired_idem now tmo _
  · show (processDetections now dets
        (scan_for_buffs now tmo dets st)).history =
      (scan_for_buffs now tmo dets st).history
    rw [hfix]

/-- C7 witness: the theorem instantiated at a concrete scan time, timeout,
detection list and empty initial state. -/
theorem scan_for_buffs_idempotent_witness :
    (scan_for_buffs 5 300 [⟨"b", (0, 0), 80⟩]
        (scan_for_buffs 5 300 [⟨"b", (0, 0), 80⟩]
          ⟨fun _ => none, []⟩)).active =
      (scan_for_buffs 5 300 [⟨"b", (0, 0), 80⟩] ⟨fun _ => none, []⟩).active ∧
    (scan_for_buffs 5 300 [⟨"b", (0, 0), 80⟩]
        (scan_for_buffs 5 300 [⟨"b", (0, 0), 80⟩]
          ⟨fun _ => none, []⟩)).history =
      (scan_for_buffs 5 300 [⟨"b", (0, 0), 80⟩] ⟨fun _ => none, []⟩).history :=
  scan_for_buffs_idempotent 5 300 [⟨"b", (0, 0), 80⟩] ⟨fun _ => none, []⟩
    (by norm_num) (by decide)

/-- C2 (amended): in the 5-step activation sequence, a failure at steps 2-4
aborts with a failure result, records the failing step, and invokes the
emergency-close recovery; a failure at step 1 aborts with a failure result
and records the step but invokes no emergency close; a failure at step 5
invokes the emergency close but the sequence still completes with a success
result and a cleared error record. -/
theorem activate_buff_failure_policy :
    ∀ (p : String) (s1 s2 s3 s4 s5 : Bool),
      (s1 = false →
        activate_buff false p s1 s2 s3 s4 s5 =
          ⟨false, "Step 1: Menu failed", [.attempt 1]⟩) ∧
      (s1 = true → s2 = false →
        activate_buff false p s1 s2 s3 s4 s5 =
          ⟨false, "Step 2: Boosts failed",
            [.attempt 1, .attempt 2] ++ emergency_close⟩) ∧
      (s1 = true → s2 = true → s3 = false →
        activate_buff false p s1 s2 s3 s4 s5 =
          ⟨false, "Step 3: Buff failed",
            [.attempt 1, .attempt 2, .attempt 3] ++ emergency_close⟩) ∧
      (s1 = true → s2 = true → s3 = true → s4 = false →
        activate_buff false p s1 s2 s3 s4 s5 =
          ⟨false, "Step 4: Use failed",
            [.attempt 1, .attempt 2, .attempt 3, .attempt 4] ++
              emergency_close⟩) ∧
      (s1 = true → s2 = true → s3 = true → s4 = true → s5 = false →
        activate_buff false p s1 s2 s3 s4 s5 =
          ⟨true, "",
            [.attempt 1, .attempt 2, .attempt 3, .attempt 4, .attempt 5] ++
              emergency_close⟩) := by
  intro p s1 s2 s3 s4 s5
  refine ⟨?_, ?_, ?_, ?_, ?_⟩ <;> (intros; subst_vars; rfl)

/-- C2 witness: a failure at step 2 aborts with failure, records the step
and emits the emergency-close events. -/
theorem activate_buff_failure_policy_witness :
    activate_buff false "" true false true true true =
      ⟨false, "Step 2: Boosts failed",
        [.attempt 1, .attempt 2] ++ emergency_close⟩ :=
  (activate_buff_failure_policy "" true false true true true).2.1 rfl rfl

/-- C2 counterexample: a failure at step 1 aborts without ever pressing
escape (no emergency close), and a failure at step 5 still yields a success
result — both contradict the claim that every failing step aborts with
failure and invokes the emergency-close recovery. -/
theorem activate_buff_failure_counterexample :
    ((activate_buff false "" false true true true true).success = false ∧
      UIEvent.pressEsc ∉
        (activate_buff false "" false true true true true).events) ∧
    (activate_buff false "" true true true true false).success = true := by
  decide

end RokBot
